import Mathlib

/-!
Verification of the gateway decision engine: a shallow embedding of the
packet rule store, packet filter, response automation, policy rule engine,
trust assessor and session monitor (the `firewall_engine` and
`zero_trust_control` packages), together with theorems settling the
specification's claims about them.

Python dictionaries carrying fixed field sets are embedded as structures;
optional fields (`dict.get` returning `None`) as `Option`; floats as `ℚ`;
exceptions as `Option`/sum results; wall-clock reads as an explicit `now`
parameter; the append-only action log as an explicitly returned list of
entries.
-/

namespace Firewall

/-- A packet rule's port field: either the wildcard `"*"` or a concrete
port number (`rule_engine.py` rules such as `{"port": 80}` or
`{"port": "*"}`). -/
inductive PortV where
  | star : PortV
  | num : Nat → PortV
deriving DecidableEq, Repr

/-- A packet-filtering rule as documented in `rule_engine.py`: id, the
four match fields (each a concrete value or the wildcard `"*"`, with the
port also possibly a number), and an action. -/
structure PacketRule where
  id : String
  src_ip : String
  dst_ip : String
  protocol : String
  port : PortV
  action : String
deriving DecidableEq, Repr

/-- A packet as consumed by `packet_filter.inspect_packet` and
`rule_engine.match`: the 5-tuple-like fields plus the externally attached
AI verdict.  The port and the AI fields may be absent. -/
structure Packet where
  src_ip : String
  dst_ip : String
  protocol : String
  port : Option Nat
  ai_pred : Option String := none
  ai_confidence : Option ℚ := none
deriving DecidableEq, Repr

namespace RuleEngine

/-- One field test of `RuleEngine.match` (`rule_engine.py` lines 65-67):
`rule.get(f) in [packet.get(f), "*"]`. -/
def fieldMatches (r p : String) : Bool :=
  r = p || r = "*"

/-- The port test of `RuleEngine.match` (`rule_engine.py` line 68):
`rule.get("port") in [packet.get("port"), "*", None]`; a rule always
carries its port field, so the `None` alternative never fires. -/
def portMatches (r : PortV) (p : Option Nat) : Bool :=
  match r with
  | .star => true
  | .num n => p = some n

/-- Whether a rule matches a packet: the conjunction tested by
`RuleEngine.match` (`rule_engine.py` lines 64-69). -/
def ruleMatches (r : PacketRule) (p : Packet) : Bool :=
  fieldMatches r.src_ip p.src_ip
    && fieldMatches r.dst_ip p.dst_ip
    && fieldMatches r.protocol p.protocol
    && portMatches r.port p.port

/-- `RuleEngine.match`: return the first matching rule, scanning the
stored rules in insertion order, or `none` (`rule_engine.py` lines 59-71).
(`match` is a reserved word in Lean, hence `matchRule`.) -/
def matchRule (rules : List PacketRule) (p : Packet) : Option PacketRule :=
  match rules with
  | [] => none
  | r :: rs => if ruleMatches r p then some r else matchRule rs p

/-- `RuleEngine.decide` (`rule_engine.py` lines 73-75): the matched rule's
action, or `"deny"` when no rule matches. -/
def decide (rules : List PacketRule) (p : Packet) : String :=
  match matchRule rules p with
  | some r => r.action
  | none => "deny"

/-- `RuleEngine.add_rule` (`rule_engine.py` lines 48-51): append the rule
(persistence modelled separately by `saveDoc`). -/
def add_rule (rules : List PacketRule) (r : PacketRule) : List PacketRule :=
  rules ++ [r]

end RuleEngine

/-- The matching predicate in the words of the specification (§4.3): every
one of the four fields is either the wildcard or exactly equal to the
corresponding packet field, the port wildcard also matching a packet that
has no port. -/
def specMatches (r : PacketRule) (p : Packet) : Bool :=
  (r.src_ip = "*" || r.src_ip = p.src_ip)
    && (r.dst_ip = "*" || r.dst_ip = p.dst_ip)
    && (r.protocol = "*" || r.protocol = p.protocol)
    && (r.port = .star || (match r.port, p.port with
          | .num n, some m => n = m
          | _, _ => false))

/-- The example rule of the specification's §8 packet-store test. -/
def exampleRule : PacketRule :=
  { id := "r1", src_ip := "10.0.0.5", dst_ip := "*", protocol := "TCP",
    port := .num 80, action := "allow" }

/-- The example TCP packet of the specification's §8 packet-store test. -/
def examplePacketTCP : Packet :=
  { src_ip := "10.0.0.5", dst_ip := "8.8.8.8", protocol := "TCP",
    port := some 80 }

/-- The same packet with protocol `"UDP"`. -/
def examplePacketUDP : Packet :=
  { examplePacketTCP with protocol := "UDP" }

theorem ruleMatches_eq_specMatches (r : PacketRule) (p : Packet) :
    RuleEngine.ruleMatches r p = specMatches r p := by
  cases r with
  | mk id src dst proto port act =>
    cases port with
    | star =>
      simp [RuleEngine.ruleMatches, specMatches, RuleEngine.fieldMatches,
        RuleEngine.portMatches, Bool.or_comm]
    | num n =>
      cases hp : p.port with
      | none =>
        simp [RuleEngine.ruleMatches, specMatches, RuleEngine.fieldMatches,
          RuleEngine.portMatches, hp, Bool.or_comm]
      | some m =>
        simp [RuleEngine.ruleMatches, specMatches, RuleEngine.fieldMatches,
          RuleEngine.portMatches, hp, Bool.or_comm, eq_comm]

theorem matchRule_eq_find (rules : List PacketRule) (p : Packet) :
    RuleEngine.matchRule rules p = rules.find? (fun r => specMatches r p) := by
  induction rules with
  | nil => rfl
  | cons r rs ih =>
    rw [RuleEngine.matchRule, List.find?]
    rw [ruleMatches_eq_specMatches]
    cases h : specMatches r p with
    | true => simp [h]
    | false => simp [h, ih]

/-- **C4** — `match` returns the first rule, in stored (insertion) order,
whose four fields are each either the wildcard `"*"` or exactly equal to
the corresponding packet field (the port wildcard also matching a packet
with no port), and `none` when no rule qualifies; `decide` returns the
matched rule's action and `"deny"` otherwise — in particular `"deny"` on
the empty store, and the §8 example rule decides the example TCP packet
`"allow"` and its UDP variant `"deny"`. -/
theorem match_first_wins_and_examples (rules : List PacketRule) (p : Packet) :
    RuleEngine.matchRule rules p = rules.find? (fun r => specMatches r p)
    ∧ RuleEngine.decide rules p
        = (match rules.find? (fun r => specMatches r p) with
           | some r => r.action
           | none => "deny")
    ∧ RuleEngine.decide [] p = "deny"
    ∧ RuleEngine.decide (RuleEngine.add_rule [] exampleRule) examplePacketTCP = "allow"
    ∧ RuleEngine.decide (RuleEngine.add_rule [] exampleRule) examplePacketUDP = "deny" := by
  refine ⟨matchRule_eq_find rules p, ?_, rfl, by decide, by decide⟩
  rw [RuleEngine.decide, matchRule_eq_find]

/-- The record returned by `PacketFilter.inspect_packet`
(`packet_filter.py` line 48): `{"decision": ..., "reason": ..., "packet": ...}`. -/
structure DecisionRec where
  decision : String
  reason : String
  packet : Packet
deriving DecidableEq, Repr

/-- `PacketFilter.inspect_packet` (`packet_filter.py` lines 25-48): if the
AI verdict is `"malicious"` with confidence above 0.8, the decision is an
immediate `"block"`; otherwise the rule engine decides. -/
def inspect_packet (rules : List PacketRule) (p : Packet) : DecisionRec :=
  if p.ai_pred = some "malicious" ∧ p.ai_confidence.getD 0 > 4/5 then
    { decision := "block", reason := "AI detected malicious", packet := p }
  else
    let d := RuleEngine.decide rules p
    { decision := d, reason := "Rule-based decision (" ++ d ++ ")", packet := p }

/-- A malicious-flagged packet with confidence 0.93, as in the §8 example. -/
def maliciousPacket : Packet :=
  { src_ip := "10.0.0.5", dst_ip := "8.8.8.8", protocol := "TCP",
    port := some 80, ai_pred := some "malicious",
    ai_confidence := some (93/100) }

/-- **C1 counterexample** — on the §8 packet (`ai_pred:"malicious"`,
`ai_confidence:0.93`), with a matching allow rule in the store,
`inspect_packet` does not return the action `"deny"` the claim states:
it returns `"block"`. -/
theorem inspect_packet_ai_not_deny :
    (inspect_packet [exampleRule] maliciousPacket).decision = "block"
    ∧ (inspect_packet [exampleRule] maliciousPacket).decision ≠ "deny" := by
  have hconf : maliciousPacket.ai_confidence.getD 0 > (4/5 : ℚ) := by
    norm_num [maliciousPacket]
  have h : inspect_packet [exampleRule] maliciousPacket
      = { decision := "block", reason := "AI detected malicious",
          packet := maliciousPacket } := by
    rw [inspect_packet, if_pos ⟨rfl, hconf⟩]
  rw [h]
  exact ⟨rfl, by decide⟩

/-- **C1 (amended)** — for every packet whose `ai_pred` is `"malicious"`
with `ai_confidence` strictly above 0.8, `inspect_packet` returns the
decision `"block"` (not `"deny"`) with reason `"AI detected malicious"`,
regardless of the contents of the packet rule store. -/
theorem inspect_packet_ai_short_circuit (rules : List PacketRule) (p : Packet)
    (hpred : p.ai_pred = some "malicious")
    (hconf : p.ai_confidence.getD 0 > 4/5) :
    inspect_packet rules p
      = { decision := "block", reason := "AI detected malicious", packet := p } := by
  rw [inspect_packet, if_pos ⟨hpred, hconf⟩]

/-- Witness for C1: the theorem applied to the §8 packet and a store
holding a matching allow rule. -/
theorem inspect_packet_ai_short_circuit_witness :
    inspect_packet [exampleRule] maliciousPacket
      = { decision := "block", reason := "AI detected malicious",
          packet := maliciousPacket } :=
  inspect_packet_ai_short_circuit [exampleRule] maliciousPacket rfl
    (by norm_num [maliciousPacket])

/-- The payload of one action-log record (`response_automation.py`): the
`data` argument passed to `log_action`. -/
inductive LogData where
  | ipData (ip : String)
  | alertData (message : String) (details : Packet)
  | packetData (p : Packet)
  | hostData (host : String)
deriving DecidableEq, Repr

/-- One record of the append-only action log (`log_action`,
`response_automation.py` lines 29-33); the UTC timestamp it also carries
is an external clock read and is not modelled. -/
structure LogEntry where
  action : String
  data : LogData
deriving DecidableEq, Repr

/-- `block_ip` (`response_automation.py` lines 36-40): synthesize a
deny-all rule for the source IP, add it to the rule engine, and log a
`block_ip` action.  Returns the new rule list and the log entries
appended. -/
def block_ip (ip : String) (rules : List PacketRule) :
    List PacketRule × List LogEntry :=
  let rule : PacketRule :=
    { id := "auto_block_" ++ ip, src_ip := ip, dst_ip := "*",
      protocol := "*", port := .star, action := "deny" }
  (RuleEngine.add_rule rules rule, [{ action := "block_ip", data := .ipData ip }])

/-- `isolate_host` (`response_automation.py` lines 43-45): log entries
appended (simulation only — no rule change, no alert entry). -/
def isolate_host (host_ip : String) : List LogEntry :=
  [{ action := "isolate_host", data := .hostData host_ip }]

/-- `send_alert` (`response_automation.py` lines 48-50): log entries
appended. -/
def send_alert (message : String) (details : Packet) : List LogEntry :=
  [{ action := "alert", data := .alertData message details }]

/-- `respond_to_decision` (`response_automation.py` lines 53-64): dispatch
on the decision field; returns the new rule list and the log entries
appended. -/
def respond_to_decision (d : DecisionRec) (rules : List PacketRule) :
    List PacketRule × List LogEntry :=
  let pkt := d.packet
  if d.decision = "block" then
    let (rules', l) := block_ip pkt.src_ip rules
    (rules', l ++ send_alert "Blocked malicious packet" pkt)
  else if d.decision = "allow" then
    (rules, [{ action := "allow", data := .packetData pkt }])
  else
    (rules, isolate_host pkt.src_ip)

/-- A concrete decision record whose decision field is `"deny"`. -/
def denyDecision : DecisionRec :=
  { decision := "deny", reason := "Rule-based decision (deny)",
    packet := { src_ip := "9.9.9.9", dst_ip := "8.8.8.8",
                protocol := "TCP", port := some 80 } }

/-- **C3 counterexample** — on a decision record whose action field is
`"deny"`, `respond_to_decision` inserts no rule at all into an empty rule
store (the claim states one synthesized deny-all rule is inserted); it
performs host isolation instead, and emits no alert. -/
theorem respond_deny_inserts_nothing :
    (respond_to_decision denyDecision []).1 = []
    ∧ (respond_to_decision denyDecision []).2.map LogEntry.action
        = ["isolate_host"] := by
  constructor <;> decide

/-- **C3 (amended)** — for every decision record: when the decision field
is `"block"` (not `"deny"`), `respond_to_decision` appends to the store
exactly one synthesized rule with `src_ip` the packet's source IP,
wildcards for `dst_ip`, `protocol` and `port`, and action `"deny"`, and
emits an alert; when it is `"allow"`, it only writes a log entry (no rule
change, no alert); for any other decision (including `"deny"`) it performs
simulated host isolation without an alert and without a rule change. -/
theorem respond_to_decision_cases (d : DecisionRec) (rules : List PacketRule) :
    (d.decision = "block" →
      (respond_to_decision d rules).1
        = rules ++ [{ id := "auto_block_" ++ d.packet.src_ip,
                      src_ip := d.packet.src_ip, dst_ip := "*",
                      protocol := "*", port := .star, action := "deny" }]
      ∧ (respond_to_decision d rules).2.map LogEntry.action
          = ["block_ip", "alert"])
    ∧ (d.decision = "allow" →
      (respond_to_decision d rules).1 = rules
      ∧ (respond_to_decision d rules).2
          = [{ action := "allow", data := .packetData d.packet }])
    ∧ (d.decision ≠ "block" → d.decision ≠ "allow" →
      (respond_to_decision d rules).1 = rules
      ∧ (respond_to_decision d rules).2
          = [{ action := "isolate_host", data := .hostData d.packet.src_ip }]) := by
  refine ⟨fun hb => ?_, fun ha => ?_, fun hnb hna => ?_⟩
  · simp [respond_to_decision, hb, block_ip, send_alert, RuleEngine.add_rule]
  · have hna : d.decision ≠ "block" := by rw [ha]; decide
    simp [respond_to_decision, ha, hna]
  · simp [respond_to_decision, hnb, hna, isolate_host]

/-- Witness for C3: the three branches exercised on concrete decision
records over the empty store. -/
theorem respond_to_decision_cases_witness :
    (respond_to_decision { denyDecision with decision := "block" } []).1
      = [{ id := "auto_block_9.9.9.9", src_ip := "9.9.9.9", dst_ip := "*",
           protocol := "*", port := .star, action := "deny" }]
    ∧ (respond_to_decision { denyDecision with decision := "allow" } []).1 = []
    ∧ (respond_to_decision denyDecision []).2
        = [{ action := "isolate_host", data := .hostData "9.9.9.9" }] := by
  refine ⟨?_, ?_, ?_⟩
  · exact ((respond_to_decision_cases { denyDecision with decision := "block" } []).1 rfl).1
  · exact ((respond_to_decision_cases { denyDecision with decision := "allow" } []).2.1 rfl).1
  · exact ((respond_to_decision_cases denyDecision []).2.2 (by decide) (by decide)).2

/-- The JSON document tree that `RuleEngine.save` serializes with
`json.dump` and `RuleEngine.load` reads back with `json.load`
(`rule_engine.py` lines 36-46); the byte-level rendering is the Python
`json` library's and is external to this model. -/
inductive Json where
  | str (s : String)
  | num (n : Nat)
  | arr (xs : List Json)
  | obj (fields : List (String × Json))

/-- The JSON value of a rule's port field: `80` or `"*"`. -/
def PortV.toJson : PortV → Json
  | .star => .str "*"
  | .num n => .num n

/-- One rule as the JSON object `RuleEngine.save` writes for it. -/
def PacketRule.toJson (r : PacketRule) : Json :=
  .obj [("id", .str r.id), ("src_ip", .str r.src_ip),
        ("dst_ip", .str r.dst_ip), ("protocol", .str r.protocol),
        ("port", r.port.toJson), ("action", .str r.action)]

/-- `RuleEngine.save` (`rule_engine.py` lines 44-46): the persisted
document is the rule list serialized in order. -/
def saveDoc (rules : List PacketRule) : Json :=
  .arr (rules.map PacketRule.toJson)

/-- Read a string field back out of a rule's JSON object. -/
def getStr (fields : List (String × Json)) (key : String) : Option String :=
  match fields.lookup key with
  | some (.str s) => some s
  | _ => none

/-- Read the port field back out of a rule's JSON object. -/
def getPort (fields : List (String × Json)) : Option PortV :=
  match fields.lookup "port" with
  | some (.str "*") => some .star
  | some (.num n) => some (.num n)
  | _ => none

/-- Deserialize one rule object, as `RuleEngine.load` recovers it. -/
def parseRule : Json → Option PacketRule
  | .obj fields => do
      let id ← getStr fields "id"
      let src ← getStr fields "src_ip"
      let dst ← getStr fields "dst_ip"
      let proto ← getStr fields "protocol"
      let port ← getPort fields
      let act ← getStr fields "action"
      pure { id := id, src_ip := src, dst_ip := dst, protocol := proto,
             port := port, action := act }
  | _ => none

/-- `RuleEngine.load` (`rule_engine.py` lines 36-42): deserialize the
persisted rule list verbatim, preserving order. -/
def loadDoc : Json → Option (List PacketRule)
  | .arr xs => xs.mapM parseRule
  | _ => none

theorem parseRule_toJson (r : PacketRule) :
    parseRule (PacketRule.toJson r) = some r := by
  cases r with
  | mk id src dst proto port act => cases port <;> rfl

/-- **C8** — persisting a packet rule store and loading it back yields the
rule list saved, identical in content and order, and therefore `decide` on
any packet returns the same action after the round trip as before it. -/
theorem save_load_round_trip (rules : List PacketRule) (p : Packet) :
    loadDoc (saveDoc rules) = some rules
    ∧ (loadDoc (saveDoc rules)).map (fun rs => RuleEngine.decide rs p)
        = some (RuleEngine.decide rules p) := by
  have h : loadDoc (saveDoc rules) = some rules := by
    rw [saveDoc, loadDoc]
    induction rules with
    | nil => rfl
    | cons r rs ih =>
      rw [List.map_cons, List.mapM_cons, parseRule_toJson, ih]
      rfl
  exact ⟨h, by rw [h]; rfl⟩

end Firewall

namespace ZeroTrust

/-- A policy rule (`access_rules.py` `Rule`, lines 23-39): a name, a
predicate over (context, resource), an action and a priority.  The
predicate models the Python callable: `none` stands for a raised
exception, `some b` for a returned value of truthiness `b`. -/
structure Rule (Ctx Res : Type) where
  name : String
  predicate : Ctx → Res → Option Bool
  action : String
  priority : Int

/-- `Rule.applies` (`access_rules.py` lines 34-39): the predicate's
truthiness, with an exception caught and treated as `False`. -/
def Rule.applies {Ctx Res : Type} (r : Rule Ctx Res) (c : Ctx) (res : Res) : Bool :=
  match r.predicate c res with
  | some b => b
  | none => false

/-- The decision dictionary `RuleEngine.evaluate` returns
(`access_rules.py` lines 59-61). -/
structure EvalResult where
  action : String
  rule : String
deriving DecidableEq, Repr

/-- `RuleEngine.evaluate` (`access_rules.py` lines 51-61): scan the rules
in list order, return the first applying rule's action and name; with no
match return the default-deny record. -/
def evaluate {Ctx Res : Type} (rules : List (Rule Ctx Res)) (c : Ctx) (res : Res) :
    EvalResult :=
  match rules with
  | [] => { action := "deny", rule := "default-deny" }
  | r :: rs => if r.applies c res then { action := r.action, rule := r.name }
               else evaluate rs c res

/-- `RuleEngine.add_rule` (`access_rules.py` lines 46-49): append then
re-sort by priority.  Python's `list.sort` is stable and the list is
sorted by priority before the call, so the new rule lands exactly after
every stored rule of priority ≤ its own and before the first stored rule
of strictly greater priority, which is what this insertion computes. -/
def add_rule {Ctx Res : Type} (r : Rule Ctx Res) :
    List (Rule Ctx Res) → List (Rule Ctx Res)
  | [] => [r]
  | a :: l => if r.priority < a.priority then r :: a :: l else a :: add_rule r l

/-- The engine's rule list after a sequence of `add_rule` calls starting
from the empty engine (`access_rules.py` lines 42-49). -/
def buildRules {Ctx Res : Type} (adds : List (Rule Ctx Res)) : List (Rule Ctx Res) :=
  adds.foldl (fun l r => add_rule r l) []

/-- **C2** — for every rule list whose every rule's predicate, at the
given (context, resource), either returns falsy or raises, `evaluate`
returns the default-deny record `{action := "deny", rule :=
"default-deny"}`; a raising predicate behaves exactly as a non-matching
one (`applies` is `false` on it). -/
theorem evaluate_default_deny {Ctx Res : Type}
    (rules : List (Rule Ctx Res)) (c : Ctx) (res : Res)
    (h : ∀ r ∈ rules, r.predicate c res = some false ∨ r.predicate c res = none) :
    evaluate rules c res = { action := "deny", rule := "default-deny" }
    ∧ ∀ r ∈ rules, r.applies c res = false := by
  have happ : ∀ r ∈ rules, r.applies c res = false := by
    intro r hr
    rcases h r hr with h' | h' <;> simp [Rule.applies, h']
  refine ⟨?_, happ⟩
  induction rules with
  | nil => rfl
  | cons r rs ih =>
    rw [evaluate, happ r (List.mem_cons_self r rs)]
    simp only [Bool.false_eq_true, if_false]
    exact ih (fun x hx => h x (List.mem_cons_of_mem r hx))
      (fun x hx => happ x (List.mem_cons_of_mem r hx))

/-- A rule over trivial context and resource types whose predicate raises. -/
def raisingRule : Rule Unit Unit :=
  { name := "raising", predicate := fun _ _ => none,
    action := "allow", priority := 10 }

/-- A rule over trivial context and resource types whose predicate
returns `False`. -/
def falseRule : Rule Unit Unit :=
  { name := "never", predicate := fun _ _ => some false,
    action := "allow", priority := 20 }

/-- Witness for C2: a store holding one raising rule and one
never-matching rule evaluates to default-deny. -/
theorem evaluate_default_deny_witness :
    evaluate [raisingRule, falseRule] () ()
      = { action := "deny", rule := "default-deny" }
    ∧ ∀ r ∈ [raisingRule, falseRule], r.applies () () = false :=
  evaluate_default_deny [raisingRule, falseRule] () () (by
    intro r hr
    rcases List.mem_cons.1 hr with h | h
    · exact Or.inr (by rw [h]; rfl)
    · rcases List.mem_cons.1 h with h' | h'
      · exact Or.inl (by rw [h']; rfl)
      · cases h')

/-- Strict "evaluated earlier" order on insertion-indexed rules:
strictly smaller priority number, or equal priority and earlier
insertion. -/
def lexLT {Ctx Res : Type} (a b : Nat × Rule Ctx Res) : Prop :=
  a.2.priority < b.2.priority ∨ (a.2.priority = b.2.priority ∧ a.1 < b.1)

/-- `add_rule` on rules tagged with their insertion index (the index does
not influence the insertion point, which compares priorities only). -/
def addIdx {Ctx Res : Type} (p : Nat × Rule Ctx Res) :
    List (Nat × Rule Ctx Res) → List (Nat × Rule Ctx Res)
  | [] => [p]
  | a :: l => if p.2.priority < a.2.priority then p :: a :: l else a :: addIdx p l

/-- The indexed engine state after adding the rules of `adds` in order,
tagging each with its insertion index starting from `i`. -/
def buildIdx {Ctx Res : Type} (i : Nat) (adds : List (Rule Ctx Res))
    (acc : List (Nat × Rule Ctx Res)) : List (Nat × Rule Ctx Res) :=
  match adds with
  | [] => acc
  | r :: rs => buildIdx (i + 1) rs (addIdx (i, r) acc)

theorem mem_addIdx {Ctx Res : Type} (p : Nat × Rule Ctx Res)
    (l : List (Nat × Rule Ctx Res)) (y : Nat × Rule Ctx Res)
    (hy : y ∈ addIdx p l) : y = p ∨ y ∈ l := by
  induction l with
  | nil => rcases List.mem_cons.1 hy with h | h
           · exact Or.inl h
           · cases h
  | cons a l ih =>
    rw [addIdx] at hy
    by_cases hc : p.2.priority < a.2.priority
    · rw [if_pos hc] at hy
      rcases List.mem_cons.1 hy with h | h
      · exact Or.inl h
      · exact Or.inr h
    · rw [if_neg hc] at hy
      rcases List.mem_cons.1 hy with h | h
      · exact Or.inr (h ▸ List.mem_cons_self a l)
      · rcases ih h with h' | h'
        · exact Or.inl h'
        · exact Or.inr (List.mem_cons_of_mem a h')

theorem addIdx_pairwise {Ctx Res : Type} (i : Nat) (r : Rule Ctx Res)
    (acc : List (Nat × Rule Ctx Res))
    (hidx : ∀ q ∈ acc, q.1 < i) (hp : acc.Pairwise lexLT) :
    (addIdx (i, r) acc).Pairwise lexLT := by
  induction acc with
  | nil => simp [addIdx, lexLT]
  | cons a l ih =>
    obtain ⟨ha, hl⟩ := List.pairwise_cons.1 hp
    rw [addIdx]
    by_cases hc : r.priority < a.2.priority
    · rw [if_pos hc]
      refine List.pairwise_cons.2 ⟨?_, hp⟩
      intro y hy
      rcases List.mem_cons.1 hy with h | h
      · exact h ▸ Or.inl hc
      · have : a.2.priority ≤ y.2.priority := by
          rcases ha y h with h' | h'
          · exact le_of_lt h'
          · exact le_of_eq h'.1
        exact Or.inl (lt_of_lt_of_le hc this)
    · rw [if_neg hc]
      refine List.pairwise_cons.2 ⟨?_, ?_⟩
      · intro y hy
        rcases mem_addIdx (i, r) l y hy with h | h
        · subst h
          rcases lt_or_eq_of_le (not_lt.1 hc) with h' | h'
          · exact Or.inl h'
          · exact Or.inr ⟨h', hidx a (List.mem_cons_self a l)⟩
        · exact ha y h
      · exact ih (fun q hq => hidx q (List.mem_cons_of_mem a hq)) hl

theorem buildIdx_pairwise {Ctx Res : Type} (adds : List (Rule Ctx Res)) :
    ∀ (i : Nat) (acc : List (Nat × Rule Ctx Res)),
      (∀ q ∈ acc, q.1 < i) → acc.Pairwise lexLT →
      (buildIdx i adds acc).Pairwise lexLT := by
  induction adds with
  | nil => intro i acc _ hp; exact hp
  | cons r rs ih =>
    intro i acc hidx hp
    rw [buildIdx]
    refine ih (i + 1) (addIdx (i, r) acc) ?_ (addIdx_pairwise i r acc hidx hp)
    intro q hq
    rcases mem_addIdx (i, r) acc q hq with h | h
    · rw [h]; exact Nat.lt_succ_self i
    · exact Nat.lt_succ_of_lt (hidx q h)

theorem map_snd_addIdx {Ctx Res : Type} (i : Nat) (r : Rule Ctx Res)
    (acc : List (Nat × Rule Ctx Res)) :
    (addIdx (i, r) acc).map Prod.snd = add_rule r (acc.map Prod.snd) := by
  induction acc with
  | nil => rfl
  | cons a l ih =>
    rw [addIdx, List.map_cons, add_rule]
    by_cases hc : r.priority < a.2.priority
    · rw [if_pos hc, if_pos hc]
      rfl
    · rw [if_neg hc, if_neg hc, List.map_cons, ih]

theorem map_snd_buildIdx {Ctx Res : Type} (adds : List (Rule Ctx Res)) :
    ∀ (i : Nat) (acc : List (Nat × Rule Ctx Res)),
      (buildIdx i adds acc).map Prod.snd
        = adds.foldl (fun l r => add_rule r l) (acc.map Prod.snd) := by
  induction adds with
  | nil => intro i acc; rfl
  | cons r rs ih =>
    intro i acc
    rw [buildIdx, List.foldl_cons, ih (i + 1) (addIdx (i, r) acc),
      map_snd_addIdx]

theorem evaluate_first_min {Ctx Res : Type} (c : Ctx) (res : Res) :
    ∀ (l : List (Rule Ctx Res)),
      l.Pairwise (fun a b => a.priority ≤ b.priority) →
      ∀ r ∈ l, r.applies c res = true →
      ∃ w ∈ l, evaluate l c res = { action := w.action, rule := w.name }
        ∧ w.applies c res = true ∧ w.priority ≤ r.priority := by
  intro l
  induction l with
  | nil => intro _ r hr; cases hr
  | cons a l ih =>
    intro hp r hr hra
    obtain ⟨ha, hl⟩ := List.pairwise_cons.1 hp
    by_cases hap : a.applies c res = true
    · refine ⟨a, List.mem_cons_self a l, ?_, hap, ?_⟩
      · rw [evaluate, if_pos hap]
      · rcases List.mem_cons.1 hr with h | h
        · rw [h]
        · exact ha r h
    · have hrl : r ∈ l := by
        rcases List.mem_cons.1 hr with h | h
        · exact absurd (h ▸ hra) hap
        · exact h
      obtain ⟨w, hw, he, hwa, hwp⟩ := ih hl r hrl hra
      exact ⟨w, List.mem_cons_of_mem a hw, by rw [evaluate, if_neg hap]; exact he,
        hwa, hwp⟩

/-- **C5** — after any sequence of `add_rule` calls starting from an empty
engine, the rule list is exactly the insertion-indexed list ordered
strictly by ascending (priority, insertion index) — ascending numeric
priority with ties broken by insertion order — and consequently, at any
(context, resource), `evaluate` returns a matching rule whose priority
number is at most that of every matching rule: a matching rule with a
lower priority number always wins over any matching rule with a higher
one, regardless of the order in which the two were added. -/
theorem priority_order_wins {Ctx Res : Type} (adds : List (Rule Ctx Res))
    (c : Ctx) (res : Res) :
    (buildIdx 0 adds []).Pairwise lexLT
    ∧ (buildIdx 0 adds []).map Prod.snd = buildRules adds
    ∧ ∀ r ∈ buildRules adds, r.applies c res = true →
        ∃ w ∈ buildRules adds,
          evaluate (buildRules adds) c res = { action := w.action, rule := w.name }
          ∧ w.applies c res = true ∧ w.priority ≤ r.priority := by
  have hpair : (buildIdx 0 adds []).Pairwise lexLT :=
    buildIdx_pairwise adds 0 [] (fun q hq => absurd hq (List.not_mem_nil q))
      List.Pairwise.nil
  have hmap : (buildIdx 0 adds []).map Prod.snd = buildRules adds :=
    map_snd_buildIdx adds 0 []
  refine ⟨hpair, hmap, ?_⟩
  have hsorted : (buildRules adds).Pairwise (fun a b => a.priority ≤ b.priority) := by
    rw [← hmap]
    refine List.Pairwise.map Prod.snd ?_ hpair
    intro a b hab
    rcases hab with h | h
    · exact le_of_lt h
    · exact le_of_eq h.1
  exact evaluate_first_min c res (buildRules adds) hsorted

/-- A matching allow rule of priority 20, added first in the C5 witness. -/
def ruleA : Rule Unit Unit :=
  { name := "allow-high", predicate := fun _ _ => some true,
    action := "allow", priority := 20 }

/-- A matching deny rule of priority 10, added second in the C5 witness. -/
def ruleB : Rule Unit Unit :=
  { name := "deny-low", predicate := fun _ _ => some true,
    action := "deny", priority := 10 }

/-- Witness for C5: with the priority-20 rule added before the
priority-10 rule, `evaluate` still resolves to a matching rule of
priority at most 20 — the later-added priority-10 rule wins. -/
theorem priority_order_wins_witness :
    ∃ w ∈ buildRules [ruleA, ruleB],
      evaluate (buildRules [ruleA, ruleB]) () ()
        = { action := w.action, rule := w.name }
      ∧ w.applies () () = true ∧ w.priority ≤ ruleA.priority := by
  refine (priority_order_wins [ruleA, ruleB] () ()).2.2 ruleA ?_ rfl
  have hb : buildRules [ruleA, ruleB] = [ruleB, ruleA] := rfl
  rw [hb]
  exact List.mem_cons_of_mem ruleB (List.mem_cons_self ruleA [])

/-- The clamp `max(0.0, min(1.0, score))` applied by every scoring
function in `identity_verification.py`. -/
def clamp (x : ℚ) : ℚ := max 0 (min 1 x)

theorem clamp_nonneg (x : ℚ) : 0 ≤ clamp x := le_max_left 0 (min 1 x)

theorem clamp_le_one (x : ℚ) : clamp x ≤ 1 :=
  max_le (by norm_num) (min_le_left 1 x)

theorem clamp_le_of_le {x y : ℚ} (hxy : x ≤ y) (hy : 0 ≤ y) : clamp x ≤ y :=
  max_le hy (le_trans (min_le_right 1 x) hxy)

/-- Outcome of the patch-recency heuristic of `verify_device`
(`identity_verification.py` lines 62-79), which compares the parsed patch
date against the current wall clock: the age bucket reached, or a parse
failure.  The clock read and `strptime` are external, so the outcome is
part of the input. -/
inductive PatchResult where
  | recent
  | moderate
  | old
  | parseFailed
deriving DecidableEq, Repr

/-- A device assertion as consumed by `verify_device`
(`identity_verification.py` lines 29-98).  `patch = none` models an
absent `patch_level`; `token = none` an absent `device_presented_token`,
and `token = some v` a presented token whose dummy hash-prefix validation
returned `v`. -/
structure DeviceAssertion where
  signed_by_mdm : Bool
  antivirus : Option String
  patch : Option PatchResult
  token : Option Bool
deriving DecidableEq, Repr

/-- The verdict dictionary returned by `verify_device` / `verify_user`. -/
structure TrustVerdict where
  ok : Bool
  score : ℚ
  reasons : List String
deriving DecidableEq, Repr

/-- `verify_device` (`identity_verification.py` lines 29-98): start from
0.5, apply the MDM, antivirus, patch-age and token deltas, clamp to
[0,1]; `ok` iff the score is at least 0.6. -/
def verify_device (a : DeviceAssertion) : TrustVerdict :=
  let s1 : ℚ := if a.signed_by_mdm then 1/2 + 3/10 else 1/2 - 1/5
  let r1 := if a.signed_by_mdm then "MDM signed" else "No MDM signature"
  let s2 := if a.antivirus = some "up_to_date" then s1 + 1/10 else s1 - 1/10
  let r2 := if a.antivirus = some "up_to_date" then "AV up-to-date"
            else "AV outdated or missing"
  let s3 := match a.patch with
    | none => s2
    | some .recent => s2 + 1/10
    | some .moderate => s2 + 0
    | some .old => s2 - 3/20
    | some .parseFailed => s2 - 1/20
  let r3 := match a.patch with
    | none => []
    | some .recent => ["Patch recent"]
    | some .moderate => ["Patch moderately recent"]
    | some .old => ["Patch old"]
    | some .parseFailed => ["Patch date parse failed"]
  let s4 := match a.token with
    | some true => s3 + 1/5
    | some false => s3 + 0
    | none => s3 - 1/10
  let r4 := match a.token with
    | some true => "Device token valid"
    | some false => "Device token present but not validated"
    | none => "No device token presented"
  let s := clamp s4
  { ok := decide (s ≥ 3/5), score := s, reasons := [r1, r2] ++ r3 ++ [r4] }

/-- Outcome of the last-authentication recency check of `verify_user`
(`identity_verification.py` lines 134-148), again relative to the
external clock: under 1 day, between 1 and 30 days, over 30 days, or a
parse failure. -/
inductive AuthAge where
  | recent
  | mid
  | stale
  | parseFailed
deriving DecidableEq, Repr

/-- A user assertion as consumed by `verify_user`
(`identity_verification.py` lines 101-153); `auth_method = none` models an
absent field (read with default `"password"`), `last_auth = none` an
absent `last_auth_time`. -/
structure UserAssertion where
  auth_method : Option String
  mfa_ok : Bool
  user_role : Option String
  last_auth : Option AuthAge
deriving DecidableEq, Repr

/-- `verify_user` (`identity_verification.py` lines 101-153): start from
0.5, apply the auth-method, role and auth-recency deltas, clamp to [0,1];
`ok` iff the score is at least 0.6. -/
def verify_user (a : UserAssertion) : TrustVerdict :=
  let method := a.auth_method.getD "password"
  let s1 : ℚ := if method = "mfa" ∨ a.mfa_ok then 1/2 + 3/10
                else if method = "sso" then 1/2 + 3/20 else 1/2 - 1/5
  let r1 := if method = "mfa" ∨ a.mfa_ok then "MFA verified"
            else if method = "sso" then "SSO auth"
            else "Password-only or unknown auth"
  let role := a.user_role.getD "user"
  let s2 := if role = "admin" then s1 - 1/10 else s1
  let r2 := if role = "admin" then ["Admin role -> requires stricter checks"]
            else []
  let s3 := match a.last_auth with
    | none => s2
    | some .recent => s2 + 1/10
    | some .mid => s2
    | some .stale => s2 - 1/10
    | some .parseFailed => s2 - 1/20
  let r3 := match a.last_auth with
    | none => []
    | some .recent => ["Recent authentication"]
    | some .mid => []
    | some .stale => ["Stale authentication"]
    | some .parseFailed => ["Could not parse last_auth_time"]
  let s := clamp s3
  { ok := decide (s ≥ 3/5), score := s, reasons := [r1] ++ r2 ++ r3 }

/-- Geo attributes of a context (`geo` dictionary). -/
structure Geo where
  country : Option String
  is_internal : Bool
deriving DecidableEq, Repr

/-- The context consumed by `verify_context`
(`identity_verification.py` lines 156-179): device and user assertions
(absent dictionaries behave as empty assertions), optional geo attributes
and the caller-supplied blocked-country list. -/
structure Context where
  device_assertion : DeviceAssertion
  user_assertion : UserAssertion
  geo : Option Geo
  blocked_countries : List String

/-- The geo penalty condition of `verify_context`
(`identity_verification.py` lines 169-174): a geo record is present and
its country is in the caller-supplied blocked-country list.  Returns the
blocked country (used in the penalty reason string), or `none` when the
penalty does not apply. -/
def geoBlockedCountry (ctx : Context) : Option String :=
  match ctx.geo with
  | some g =>
      match g.country with
      | some c => if decide (c ∈ ctx.blocked_countries) then some c else none
      | none => none
  | none => none

/-- The combined verdict returned by `verify_context`. -/
structure ContextVerdict where
  allow : Bool
  score : ℚ
  reasons : List String
deriving DecidableEq, Repr

/-- `verify_context` (`identity_verification.py` lines 156-179): weighted
average 0.6·device + 0.4·user, minus 0.4 when the geo country is blocked,
clamped to [0,1]; `allow` iff the combined score is at least 0.65. -/
def verify_context (ctx : Context) : ContextVerdict :=
  let dres := verify_device ctx.device_assertion
  let ures := verify_user ctx.user_assertion
  let combined : ℚ := 3/5 * dres.score + 2/5 * ures.score
  let reasons := ["device:" ++ String.intercalate ";" dres.reasons,
                  "user:" ++ String.intercalate ";" ures.reasons]
  let combined' := match geoBlockedCountry ctx with
    | some _ => combined - 2/5
    | none => combined
  let reasons' := match geoBlockedCountry ctx with
    | some c => reasons ++ ["geo:" ++ c ++ " blocked"]
    | none => reasons
  let s := clamp combined'
  { allow := decide (s ≥ 13/20), score := s, reasons := reasons' }

theorem verify_device_score_bounds (a : DeviceAssertion) :
    0 ≤ (verify_device a).score ∧ (verify_device a).score ≤ 1 := by
  simp only [verify_device]
  exact ⟨clamp_nonneg _, clamp_le_one _⟩

theorem verify_user_score_bounds (a : UserAssertion) :
    0 ≤ (verify_user a).score ∧ (verify_user a).score ≤ 1 := by
  simp only [verify_user]
  exact ⟨clamp_nonneg _, clamp_le_one _⟩

/-- **C6** — for every context whose geo country is in the caller-supplied
blocked-country list, `verify_context` yields `allow = false`, whatever
the device and user assertions: even with both component scores at their
clamped maximum of 1, the combined score 0.6·1 + 0.4·1 − 0.4 = 0.6 stays
below the 0.65 allow threshold. -/
theorem verify_context_blocked_country_denies (ctx : Context) (g : Geo)
    (c : String) (hg : ctx.geo = some g) (hc : g.country = some c)
    (hb : c ∈ ctx.blocked_countries) :
    (verify_context ctx).allow = false := by
  have hgb : geoBlockedCountry ctx = some c := by
    simp only [geoBlockedCountry, hg, hc]
    rw [if_pos (decide_eq_true hb)]
  obtain ⟨hd0, hd1⟩ := verify_device_score_bounds ctx.device_assertion
  obtain ⟨hu0, hu1⟩ := verify_user_score_bounds ctx.user_assertion
  simp only [verify_context, hgb]
  apply decide_eq_false
  intro hge
  have hle : 3/5 * (verify_device ctx.device_assertion).score
      + 2/5 * (verify_user ctx.user_assertion).score - 2/5 ≤ (3:ℚ)/5 := by
    linarith
  have hs := clamp_le_of_le hle (by norm_num)
  linarith

/-- A maximally scored device assertion for the C6 witness. -/
def maxDevice : DeviceAssertion :=
  { signed_by_mdm := true, antivirus := some "up_to_date",
    patch := some .recent, token := some true }

/-- A maximally scored user assertion for the C6 witness. -/
def maxUser : UserAssertion :=
  { auth_method := some "mfa", mfa_ok := true, user_role := none,
    last_auth := some .recent }

/-- A context from a blocked country with maximal device and user
assertions, for the C6 witness. -/
def blockedContext : Context :=
  { device_assertion := maxDevice, user_assertion := maxUser,
    geo := some { country := some "ZZ", is_internal := true },
    blocked_countries := ["ZZ"] }

/-- Witness for C6: the blocked-country context with maximal assertions
is denied. -/
theorem verify_context_blocked_country_denies_witness :
    (verify_context blockedContext).allow = false :=
  verify_context_blocked_country_denies blockedContext
    { country := some "ZZ", is_internal := true } "ZZ" rfl rfl
    (List.mem_cons_self "ZZ" [])

/-- The payload carried by a session alert besides its reason and
timestamp (`session_monitor.py` lines 71 and 78): the cumulative byte
count, or the distinct-destination count. -/
inductive AlertInfo where
  | bytesInfo (n : Int)
  | dstInfo (n : Nat)
deriving DecidableEq, Repr

/-- One alert appended to a session's alert list (`session_monitor.py`
lines 71 and 78). -/
structure Alert where
  reason : String
  whenT : Nat
  info : AlertInfo
deriving DecidableEq, Repr

/-- The opaque user/device/resource context snapshot stored in a
session. -/
abbrev SessionCtx : Type := List (String × String)

/-- One session record (`create_session`, `session_monitor.py` lines
35-43), with the lazily created `alerts` list modelled as initially empty
and the `ended_at` key as an `Option`. -/
structure Session where
  session_id : String
  created_at : Nat
  last_seen : Nat
  context : SessionCtx
  status : String
  cumulative_bytes : Int
  events_count : Nat
  alerts : List Alert
  ended_at : Option Nat
deriving DecidableEq

/-- One session event (`update_session` docstring, `session_monitor.py`
lines 51-55); each field may be absent. -/
structure SessionEvent where
  src_ip : Option String
  dst_ip : Option String
  bytes : Option Int
  dport : Option Nat
  event_type : Option String
deriving DecidableEq, Repr

/-- The session monitor's module state: the `_sessions` dictionary and
the `_session_events` per-session deque (`session_monitor.py` lines
27-28). -/
structure MonState where
  sessions : String → Option Session
  events : String → List SessionEvent

/-- The monitor's initial state: both dictionaries empty. -/
def emptyMon : MonState :=
  { sessions := fun _ => none, events := fun _ => [] }

/-- Store a session under its id (`_sessions[session_id] = s`). -/
def setSession (st : MonState) (id : String) (s : Session) : MonState :=
  { st with sessions := fun i => if i = id then some s else st.sessions i }

/-- `create_session` (`session_monitor.py` lines 31-46): a fresh active
session with zeroed counters, stored and returned. -/
def create_session (st : MonState) (id : String) (ctx : SessionCtx)
    (now : Nat) : MonState × Session :=
  let s : Session :=
    { session_id := id, created_at := now, last_seen := now, context := ctx,
      status := "active", cumulative_bytes := 0, events_count := 0,
      alerts := [], ended_at := none }
  (setSession st id s, s)

/-- Append to a session's event deque of capacity 500, evicting the
oldest entries on overflow (`deque(maxlen=500)`,
`session_monitor.py` line 28). -/
def pushEvent (es : List SessionEvent) (e : SessionEvent) : List SessionEvent :=
  let es' := es ++ [e]
  if 500 < es'.length then es'.drop (es'.length - 500) else es'

/-- The distinct truthy destination IPs among the last 50 window entries
(`session_monitor.py` lines 74-75): `len({e.get("dst_ip") for e in
last_events if e.get("dst_ip")})`. -/
def uniqueDst (window : List SessionEvent) : Nat :=
  let last50 := window.drop (window.length - 50)
  (last50.filterMap (fun ev => match ev.dst_ip with
    | some d => if d = "" then none else some d
    | none => none)).dedup.length

/-- The per-session mutation performed by `update_session`
(`session_monitor.py` lines 61-79) once the session and its updated event
window are in hand: bump last-seen, event count and cumulative bytes,
then run the two independent anomaly checks. -/
def applyEvent (s : Session) (window : List SessionEvent)
    (e : SessionEvent) (now : Nat) : Session :=
  let s1 := { s with
    last_seen := now, events_count := s.events_count + 1,
    cumulative_bytes := s.cumulative_bytes + e.bytes.getD 0 }
  let s2 := if 100 * 1024 * 1024 < s1.cumulative_bytes then
      { s1 with
        status := "suspicious",
        alerts := s1.alerts ++ [{
          reason := "high_data_transfer", whenT := now,
          info := .bytesInfo s1.cumulative_bytes }] }
    else s1
  if 20 < uniqueDst window then
    { s2 with
      status := "suspicious",
      alerts := s2.alerts ++ [{
        reason := "many_unique_destinations", whenT := now,
        info := .dstInfo (uniqueDst window) }] }
  else s2

/-- `update_session` (`session_monitor.py` lines 49-80): auto-create an
unknown session with empty context, push the event onto the bounded
window, update the counters and run the anomaly checks. -/
def update_session (st : MonState) (id : String) (e : SessionEvent)
    (now : Nat) : MonState × Session :=
  let p := match st.sessions id with
    | some s => (st, s)
    | none => create_session st id [] now
  let window := pushEvent (p.1.events id) e
  let s' := applyEvent p.2 window e now
  ({ sessions := fun i => if i = id then some s' else p.1.sessions i,
     events := fun i => if i = id then window else p.1.events i }, s')

/-- `check_session` (`session_monitor.py` lines 83-95): `none` reports the
distinct not-found result; an existing session is escalated (and stored)
as `"quarantined"` when it has accumulated at least 2 alerts. -/
def check_session (st : MonState) (id : String) : MonState × Option Session :=
  match st.sessions id with
  | none => (st, none)
  | some s =>
      if 2 ≤ s.alerts.length then
        let s' := { s with status := "quarantined" }
        (setSession st id s', some s')
      else (st, some s)

/-- `end_session` (`session_monitor.py` lines 98-103): mark an existing
session ended and record the end time; a no-op on an unknown id. -/
def end_session (st : MonState) (id : String) (now : Nat) : MonState :=
  match st.sessions id with
  | some s => setSession st id { s with status := "ended", ended_at := some now }
  | none => st

/-- Cumulative byte counter of a stored session (0 when absent). -/
def cumOf (st : MonState) (id : String) : Int :=
  ((st.sessions id).map Session.cumulative_bytes).getD 0

/-- Status of a stored session (`"not_found"` when absent). -/
def statusOf (st : MonState) (id : String) : String :=
  ((st.sessions id).map Session.status).getD "not_found"

/-- Alert list of a stored session (empty when absent). -/
def alertsOf (st : MonState) (id : String) : List Alert :=
  ((st.sessions id).map Session.alerts).getD []

/-- A 1 MiB flow event with no destination IP. -/
def mibEvent : SessionEvent :=
  { src_ip := none, dst_ip := none, bytes := some 1048576, dport := none,
    event_type := some "flow" }

/-- The monitor state after creating session `"s"` and feeding it `n`
1 MiB events. -/
def feedMiB (n : Nat) : MonState :=
  (fun st => (update_session st "s" mibEvent 0).1)^[n]
    (create_session emptyMon "s" [] 0).1

set_option maxRecDepth 8000 in
/-- **C7** — after feeding a fresh session exactly 101 events of
1,048,576 bytes each, the cumulative byte counter is 105,906,176, which
strictly exceeds 100 MiB, the status is `"suspicious"`, and the alert
list holds an alert tagged `"high_data_transfer"`; after only 100 such
events that alert is absent. -/
theorem high_data_transfer_after_101_mib :
    cumOf (feedMiB 101) "s" = 105906176
    ∧ 100 * 1024 * 1024 < cumOf (feedMiB 101) "s"
    ∧ statusOf (feedMiB 101) "s" = "suspicious"
    ∧ (alertsOf (feedMiB 101) "s").any
        (fun a => a.reason = "high_data_transfer") = true
    ∧ (alertsOf (feedMiB 100) "s").any
        (fun a => a.reason = "high_data_transfer") = false := by
  refine ⟨?_, ?_, ?_, ?_, ?_⟩ <;> decide

theorem applyEvent_cum (s : Session) (window : List SessionEvent)
    (e : SessionEvent) (now : Nat) :
    (applyEvent s window e now).cumulative_bytes
      = s.cumulative_bytes + e.bytes.getD 0 := by
  simp only [applyEvent]
  split_ifs <;> rfl

theorem update_session_lookup (st : MonState) (id : String)
    (e : SessionEvent) (now : Nat) (s : Session)
    (hs : st.sessions id = some s) :
    (update_session st id e now).1.sessions id
      = some (applyEvent s (pushEvent (st.events id) e) e now) := by
  simp only [update_session, hs]
  simp

/-- A 5-byte event. -/
def posEvent : SessionEvent :=
  { src_ip := none, dst_ip := none, bytes := some 5, dport := none,
    event_type := none }

/-- An event whose byte count field is negative. -/
def negEvent : SessionEvent :=
  { src_ip := none, dst_ip := none, bytes := some (-3), dport := none,
    event_type := none }

/-- The monitor after a fresh session `"s"` receives the 5-byte event. -/
def stPos : MonState :=
  (update_session (create_session emptyMon "s" [] 0).1 "s" posEvent 0).1

/-- `stPos` after session `"s"` receives the negative-byte event. -/
def stNeg : MonState :=
  (update_session stPos "s" negEvent 0).1

/-- **C9 counterexample** — an `update_session` carrying a negative byte
count decreases the cumulative byte counter of a live (never-ended)
session: 5 bytes, then an event of −3 bytes, leaves the counter at 2. -/
theorem negative_bytes_decrease_counter :
    cumOf stPos "s" = 5 ∧ cumOf stNeg "s" = 2
    ∧ cumOf stNeg "s" < cumOf stPos "s" := by
  refine ⟨?_, ?_, ?_⟩ <;> decide

/-- **C9 (amended)** — for every stored session, the cumulative byte
counter never decreases across an `update_session` whose event's byte
count field is absent or non-negative (an event with a negative byte
count does decrease it), and `check_session` and `end_session` leave the
counter unchanged. -/
theorem cumulative_bytes_monotone (st : MonState) (id : String) (s : Session)
    (hs : st.sessions id = some s) :
    (∀ (e : SessionEvent) (now : Nat), 0 ≤ e.bytes.getD 0 →
      ∃ s', (update_session st id e now).1.sessions id = some s'
        ∧ s.cumulative_bytes ≤ s'.cumulative_bytes)
    ∧ (∃ s', (check_session st id).1.sessions id = some s'
        ∧ s'.cumulative_bytes = s.cumulative_bytes)
    ∧ ∀ (now : Nat), ∃ s', (end_session st id now).sessions id = some s'
        ∧ s'.cumulative_bytes = s.cumulative_bytes := by
  refine ⟨?_, ?_, ?_⟩
  · intro e now hb
    refine ⟨applyEvent s (pushEvent (st.events id) e) e now,
      update_session_lookup st id e now s hs, ?_⟩
    rw [applyEvent_cum]
    linarith
  · simp only [check_session, hs]
    by_cases ha : 2 ≤ s.alerts.length
    · rw [if_pos ha]
      exact ⟨{ s with status := "quarantined" }, by simp [setSession], rfl⟩
    · rw [if_neg ha]
      exact ⟨s, hs, rfl⟩
  · intro now
    simp only [end_session, hs]
    exact ⟨{ s with status := "ended", ended_at := some now },
      by simp [setSession], rfl⟩

/-- Witness for C9: the monotonicity theorem applied to the state holding
the 5-byte session, for a 5-byte update, a check and an end. -/
theorem cumulative_bytes_monotone_witness :
    (∃ s', (update_session stPos "s" posEvent 0).1.sessions "s" = some s'
      ∧ (5:Int) ≤ s'.cumulative_bytes)
    ∧ (∃ s', (check_session stPos "s").1.sessions "s" = some s'
      ∧ s'.cumulative_bytes = 5)
    ∧ ∃ s', (end_session stPos "s" 1).sessions "s" = some s'
      ∧ s'.cumulative_bytes = 5 := by
  have hs : stPos.sessions "s" = some (applyEvent
      { session_id := "s", created_at := 0, last_seen := 0, context := [],
        status := "active", cumulative_bytes := 0, events_count := 0,
        alerts := [], ended_at := none }
      (pushEvent [] posEvent) posEvent 0) := by decide
  have h := cumulative_bytes_monotone stPos "s" _ hs
  refine ⟨?_, ?_, h.2.2 1⟩
  · obtain ⟨s', h1, h2⟩ := h.1 posEvent 0 (by decide)
    exact ⟨s', h1, le_trans (by decide) h2⟩
  · obtain ⟨s', h1, h2⟩ := h.2.1
    exact ⟨s', h1, h2⟩

/-- **C10** — `check_session` on an existing session holding at least 2
alerts both stores and reports status `"quarantined"`, whatever the
session's current status — in particular a session already set to the
terminal `"ended"` status. -/
theorem check_session_quarantines (st : MonState) (id : String) (s : Session)
    (hs : st.sessions id = some s) (ha : 2 ≤ s.alerts.length) :
    (check_session st id).2 = some { s with status := "quarantined" }
    ∧ (check_session st id).1.sessions id
        = some { s with status := "quarantined" } := by
  simp only [check_session, hs]
  rw [if_pos ha]
  exact ⟨rfl, by simp [setSession]⟩

/-- A first alert for the C10 witness. -/
def alertA : Alert :=
  { reason := "high_data_transfer", whenT := 0, info := .bytesInfo 105906176 }

/-- A second alert for the C10 witness. -/
def alertB : Alert :=
  { reason := "many_unique_destinations", whenT := 0, info := .dstInfo 21 }

/-- A session carrying two alerts. -/
def twoAlertSession : Session :=
  { session_id := "s", created_at := 0, last_seen := 0, context := [],
    status := "active", cumulative_bytes := 0, events_count := 0,
    alerts := [alertA, alertB], ended_at := none }

/-- The monitor after `end_session` ends the two-alert session. -/
def endedState : MonState :=
  end_session (setSession emptyMon "s" twoAlertSession) "s" 1

/-- The two-alert session as stored after `end_session`. -/
def endedSession : Session :=
  { twoAlertSession with status := "ended", ended_at := some 1 }

/-- Witness for C10: a subsequent `check_session` on the ended two-alert
session reports and stores `"quarantined"`, not `"ended"`. -/
theorem check_session_quarantines_witness :
    (check_session endedState "s").2
      = some { endedSession with status := "quarantined" }
    ∧ (check_session endedState "s").1.sessions "s"
        = some { endedSession with status := "quarantined" } :=
  check_session_quarantines endedState "s" endedSession (by decide) (by decide)

end ZeroTrust
